import Mathlib

/-!
Verification of the AI-Code-Detector core engines.

The repository's core is three cooperating text-heuristic engines written in
TypeScript — a detection engine (`detectionEngine.ts`), a pattern analyzer
(`patternAnalyzer.ts`) and a suggestion generator (`suggestionGenerator.ts`) —
plus a coordinator (`codeAnalysisService.ts`) that merges their outputs.

This file gives a shallow embedding of those four modules and proves the
specification claims about them.  Code text is modelled as `List Char`;
JavaScript numbers are modelled with exact arithmetic (`ℚ`, and `ℝ` where a
square root occurs).  Every regular expression of the source is translated
into an explicit executable matcher over `List Char`; where the source's
greedy backtracking search is equivalent to a deterministic maximal-munch
scan (disjoint character classes), the deterministic form is used and noted.
JavaScript `NaN` arising from 0/0 propagates through `<`/`>` comparisons as
`false`; the embedding reproduces the resulting branch by an explicit
emptiness test, noted at each spot.
-/

set_option maxRecDepth 100000

namespace AICD

/-- Code text: the contents of a JavaScript string, one entry per UTF-16 unit
(all inputs considered here are ASCII, where the two notions agree). -/
abbrev Text := List Char

/-! ### Character classes and elementary text operations (ECMAScript semantics) -/

/-- The opening brace character. -/
def lbrace : Char := Char.ofNat 123

/-- The closing brace character. -/
def rbrace : Char := Char.ofNat 125

/-- The double-quote character. -/
def dquote : Char := Char.ofNat 34

/-- The single-quote character. -/
def squote : Char := Char.ofNat 39

/-- JavaScript `\s` (restricted to the ASCII white-space characters; the
inputs analysed are ASCII, where this agrees with ECMAScript). -/
def isSpaceChar (c : Char) : Bool :=
  c = ' ' || c = '\t' || c = '\n' || c = '\r' || c = Char.ofNat 11 || c = Char.ofNat 12

/-- ASCII lower-case letter, the class `[a-z]`. -/
def isAsciiLower (c : Char) : Bool := 'a' ≤ c && c ≤ 'z'

/-- ASCII upper-case letter, the class `[A-Z]`. -/
def isAsciiUpper (c : Char) : Bool := 'A' ≤ c && c ≤ 'Z'

/-- ASCII digit, the class `[0-9]`. -/
def isAsciiDigit (c : Char) : Bool := '0' ≤ c && c ≤ '9'

/-- The class `[a-zA-Z]`. -/
def isAsciiAlpha (c : Char) : Bool := isAsciiLower c || isAsciiUpper c

/-- The class `[a-zA-Z0-9]`. -/
def isAsciiAlnum (c : Char) : Bool := isAsciiAlpha c || isAsciiDigit c

/-- JavaScript `\w`, the class `[A-Za-z0-9_]`. -/
def isWordChar (c : Char) : Bool := isAsciiAlnum c || c = '_'

/-- A quote character, the class `['"]`. -/
def isQuoteChar (c : Char) : Bool := c = squote || c = dquote

/-- `String.prototype.split('\n')`: split into lines at each newline.
Always returns at least one (possibly empty) line. -/
def splitLines : Text → List Text
  | [] => [[]]
  | c :: rest =>
    if c = '\n' then [] :: splitLines rest
    else
      match splitLines rest with
      | [] => [[c]]
      | l :: ls => (c :: l) :: ls

/-- `String.prototype.trim()`: strip leading and trailing white space. -/
def trim (s : Text) : Text :=
  ((s.dropWhile isSpaceChar).reverse.dropWhile isSpaceChar).reverse

/-- `String.prototype.startsWith(p)`. -/
def startsWith (p s : Text) : Bool := p.isPrefixOf s

/-- `String.prototype.includes(n)`: substring containment. -/
def containsSub (n s : Text) : Bool := s.tails.any (fun t => n.isPrefixOf t)

/-- Lower-case an ASCII character (for the regex flag `i`). -/
def lowerChar (c : Char) : Char := c.toLower

/-! ### Executable regex building blocks

Each matcher takes the suffix of the text starting at a candidate position and
returns the rest of the text after the match (`some`), or `none`.  Counting a
`g`-flag regex's matches follows JavaScript's scan: find the leftmost match,
continue after its end, otherwise advance one position. -/

/-- Consume a literal, case-sensitively. -/
def eatLit : Text → Text → Option Text
  | [], s => some s
  | _, [] => none
  | p :: ps, c :: cs => if c = p then eatLit ps cs else none

/-- Consume a literal, case-insensitively (regex flag `i`). -/
def eatLitCI : Text → Text → Option Text
  | [], s => some s
  | _, [] => none
  | p :: ps, c :: cs => if lowerChar c = lowerChar p then eatLitCI ps cs else none

/-- Consume `\s+` (greedy; the tokens following it in every pattern used here
start with a non-space character, so maximal munch is exact). -/
def eatWs1 : Text → Option Text
  | c :: cs => if isSpaceChar c then some (cs.dropWhile isSpaceChar) else none
  | [] => none

/-- Consume `\w+` (greedy; always followed here by a non-word token). -/
def eatWord1 : Text → Option Text
  | c :: cs => if isWordChar c then some (cs.dropWhile isWordChar) else none
  | [] => none

/-- Count the non-overlapping left-to-right matches of `m`, like
`String.prototype.match(re_with_g_flag).length`.  The second argument is the
number of positions still to be skipped because they lie inside the previous
match (every pattern used here matches at least one character). -/
def countScan (m : Text → Option Text) : Text → Nat → Nat
  | [], _ => 0
  | _ :: cs, k + 1 => countScan m cs k
  | c :: cs, 0 =>
    match m (c :: cs) with
    | some rest => 1 + countScan m cs ((c :: cs).length - rest.length - 1)
    | none => countScan m cs 0

/-- Number of matches of a `g`-flag regex over the whole text. -/
def countMatches (m : Text → Option Text) (s : Text) : Nat := countScan m s 0

/-- Whether a regex matches anywhere (`RegExp.prototype.test`). -/
def testMatch (m : Text → Option Text) (s : Text) : Bool :=
  s.tails.any (fun t => (m t).isSome)

/-- Greedy `.*` (no newline) followed by the matcher `m`: try the longest
admissible dot-run first, exactly as a backtracking engine does. -/
def greedyDotThen (m : Text → Option Text) (s : Text) : Option Text :=
  let limit := (s.takeWhile (fun c => c ≠ '\n')).length
  (List.range (limit + 1)).reverse.foldl
    (fun acc k =>
      match acc with
      | some r => some r
      | none => m (s.drop k)) none

/-- Maximal runs of `\w` characters.  A pattern anchored by `\b` on both sides
matches exactly the maximal word runs of the matched shape, because a word
boundary cannot occur between two word characters. -/
def wordRuns (s : Text) : List Text :=
  let p := s.foldr
    (fun c (acc : Text × List Text) =>
      if isWordChar c then (c :: acc.1, acc.2)
      else ([], if acc.1 = [] then acc.2 else acc.1 :: acc.2))
    ([], [])
  if p.1 = [] then p.2 else p.1 :: p.2

/-! ### Detection engine (`detectionEngine.ts`) -/

/-- The five heuristic sub-scores (`analysisDetails` of `DetectionResult`). -/
structure MetricBundle where
  commentDensity : ℚ
  codeStructureScore : ℚ
  namingPatternScore : ℚ
  complexityScore : ℚ
  uniformityScore : ℚ
deriving DecidableEq

/-- Result record of `DetectionEngine.analyzeCode`. -/
structure DetectionResult where
  aiProbability : ℚ
  detectionMethod : String
  confidenceScore : ℝ
  analysisDetails : MetricBundle

/-- `Math.round(x * 100) / 100`: rounding to two decimals; JavaScript
`Math.round` rounds half-way cases toward positive infinity. -/
def round2Q (x : ℚ) : ℚ := (⌊x * 100 + 1 / 2⌋ : ℚ) / 100

/-- `Math.round(x * 100) / 100` on a real value. -/
noncomputable def round2R (x : ℝ) : ℝ := (⌊x * 100 + 1 / 2⌋ : ℝ) / 100

namespace DetectionEngine

/-- `calculateCommentDensity`: share of comment-looking lines among non-blank
lines, bucketed.  The source returns `0` outright when there is no non-blank
line (guard against division by zero). -/
def calculateCommentDensity (code : Text) : ℚ :=
  let lines := splitLines code
  let commentLines := (lines.filter (fun line =>
    let trimmed := trim line
    startsWith "//".data trimmed || startsWith "/*".data trimmed ||
    startsWith "*".data trimmed || startsWith "#".data trimmed)).length
  let totalLines := (lines.filter (fun line => (trim line).length > 0)).length
  if totalLines = 0 then 0
  else
    let density : ℚ := ((commentLines : ℚ) / (totalLines : ℚ)) * 100
    if density > 30 then 75 else if density < 5 then 20 else 50

/-- `checkIndentation`: the set of distinct non-zero leading-whitespace
lengths of non-blank lines has size at most 6. -/
def checkIndentation (code : Text) : Bool :=
  let lines := (splitLines code).filter (fun line => (trim line).length > 0)
  let indents := lines.map (fun line => (line.takeWhile isSpaceChar).length)
  ((indents.filter (fun i => i > 0)).dedup).length ≤ 6

/-- Whether the last non-whitespace character of the text is `c`; this is
exactly when `/c\s*$/` matches (no `m` flag, so `$` is end of input). -/
def lastNonWsIs (c : Char) (code : Text) : Bool :=
  match code.reverse.dropWhile isSpaceChar with
  | d :: _ => d = c
  | [] => false

/-- `checkSpacing`: at least 3 of the six fixed patterns match.  Since `\s*`
may be empty, `/\s*=\s*/` (and the `+`, `-`, `*` variants) match exactly when
the operator character occurs at all. -/
def checkSpacing (code : Text) : Bool :=
  let tests : List Bool :=
    [code.contains '=',
     code.contains '+',
     code.contains '-',
     code.contains '*',
     lastNonWsIs lbrace code,
     lastNonWsIs rbrace code]
  (tests.filter id).length ≥ 3

/-- Matcher for `function\s+\w+`. -/
def matchFunctionKwAt (s : Text) : Option Text :=
  ((eatLit "function".data s).bind eatWs1).bind eatWord1

/-- Matcher for `const\s+\w+\s*=\s*\(`. -/
def matchConstArrowAt (s : Text) : Option Text :=
  (((eatLit "const".data s).bind eatWs1).bind eatWord1).bind (fun r3 =>
    match r3.dropWhile isSpaceChar with
    | '=' :: r4 =>
      match r4.dropWhile isSpaceChar with
      | '(' :: r5 => some r5
      | _ => none
    | _ => none)

/-- Matcher for `class\s+\w+`. -/
def matchClassKwAt (s : Text) : Option Text :=
  ((eatLit "class".data s).bind eatWs1).bind eatWord1

/-- Matcher for `function\s+\w+|const\s+\w+\s*=\s*\(` (alternatives tried in
source order). -/
def matchFunctionLikeAt (s : Text) : Option Text :=
  match matchFunctionKwAt s with
  | some r => some r
  | none => matchConstArrowAt s

/-- `checkLogicalBlocks`: at least one match of
`function\s+\w+|const\s+\w+\s*=\s*\(|class\s+\w+`. -/
def checkLogicalBlocks (code : Text) : Bool :=
  testMatch (fun s =>
    match matchFunctionLikeAt s with
    | some r => some r
    | none => matchClassKwAt s) code

/-- `analyzeCodeStructure`: weighted sum of the three boolean checks,
bucketed. -/
def analyzeCodeStructure (code : Text) : ℚ :=
  let hasConsistentIndentation := checkIndentation code
  let hasProperSpacing := checkSpacing code
  let hasLogicalBlocks := checkLogicalBlocks code
  let structureScore : ℚ :=
    (if hasConsistentIndentation then 33 else 0) +
    (if hasProperSpacing then 33 else 0) +
    (if hasLogicalBlocks then 34 else 0)
  if structureScore > 80 then 70 else if structureScore < 40 then 30 else 50

/-- A maximal word run matching `\b[a-z][a-zA-Z0-9]*\b`: starts with a
lower-case letter and contains no underscore. -/
def isCamelToken (r : Text) : Bool :=
  match r with
  | c :: cs => isAsciiLower c && cs.all isAsciiAlnum
  | [] => false

/-- A maximal word run matching `\b[a-z]{4,}[A-Z][a-z]+\b`: at least four
lower-case letters, one upper-case letter, then lower-case letters to the
end of the run. -/
def isDescriptiveToken (r : Text) : Bool :=
  let a := r.takeWhile isAsciiLower
  let rest := r.drop a.length
  a.length ≥ 4 &&
    (match rest with
     | c :: cs => isAsciiUpper c && cs ≠ [] && cs.all isAsciiLower
     | [] => false)

/-- `analyzeNamingPatterns`: ratio of descriptive identifiers to camel-case
identifiers (clamped at 100), bucketed. -/
def analyzeNamingPatterns (code : Text) : ℚ :=
  let camelCaseMatches := (wordRuns code).filter isCamelToken
  let descriptiveMatches := (wordRuns code).filter isDescriptiveToken
  let namingScore : ℚ :=
    min (((descriptiveMatches.length : ℚ) / (max camelCaseMatches.length 1 : ℚ)) * 100) 100
  if namingScore > 40 then 65 else if namingScore < 10 then 35 else 50

/-- The control-flow keywords counted by `analyzeComplexity`. -/
def controlFlowKeywords : List Text :=
  ["if".data, "else".data, "for".data, "while".data, "switch".data, "case".data]

/-- Total count of whole-word (`\b…\b`) occurrences of the six control-flow
keywords: maximal word runs equal to a keyword. -/
def controlFlowCount (code : Text) : Nat :=
  (controlFlowKeywords.map (fun kw => ((wordRuns code).filter (fun r => r = kw)).length)).sum

/-- `analyzeComplexity`: average non-blank line length and control-flow
density, bucketed.  With no non-blank line the source's averages are `NaN`
(0/0) and both comparisons are false, so the final branch value 55 is
returned; the embedding makes that case an explicit test. -/
def analyzeComplexity (code : Text) : ℚ :=
  let lines := (splitLines code).filter (fun line => (trim line).length > 0)
  if lines.length = 0 then 55
  else
    let avgLineLength : ℚ := ((lines.map (fun l => l.length)).sum : ℚ) / (lines.length : ℚ)
    let complexityRatio : ℚ := (controlFlowCount code : ℚ) / (lines.length : ℚ)
    if avgLineLength > 80 ∧ complexityRatio > 2 / 10 then 70
    else if avgLineLength < 30 ∧ complexityRatio < 1 / 10 then 40
    else 55

/-- `analyzeUniformity`: population standard deviation of non-blank line
lengths, bucketed.  With no non-blank line the source's standard deviation is
`NaN` and both comparisons are false, giving 55.  Since the deviation is the
square root of a non-negative variance, `stdDev < 20 ↔ variance < 400` and
`stdDev > 50 ↔ variance > 2500`; the embedding compares the variance. -/
def analyzeUniformity (code : Text) : ℚ :=
  let lines := (splitLines code).filter (fun line => (trim line).length > 0)
  if lines.length = 0 then 55
  else
    let lineLengths := lines.map (fun l => l.length)
    let avg : ℚ := (lineLengths.sum : ℚ) / (lineLengths.length : ℚ)
    let variance : ℚ :=
      ((lineLengths.map (fun len => ((len : ℚ) - avg) ^ 2)).sum) / (lineLengths.length : ℚ)
    if variance < 400 then 75 else if variance > 2500 then 40 else 55

/-- The unclamped weighted sum (`probability` in `calculateAIProbability`). -/
def rawProbability (scores : MetricBundle) : ℚ :=
  scores.commentDensity * 0.15 +
  scores.codeStructureScore * 0.25 +
  scores.namingPatternScore * 0.20 +
  scores.complexityScore * 0.20 +
  scores.uniformityScore * 0.20

/-- `calculateAIProbability`: weighted sum clamped to `[0, 100]`. -/
def calculateAIProbability (scores : MetricBundle) : ℚ :=
  max 0 (min 100 (rawProbability scores))

/-- `calculateConfidence`: `100 − 1.5·stddev` of the five scores (population
standard deviation), clamped to `[50, 100]`. -/
noncomputable def calculateConfidence (scores : MetricBundle) : ℝ :=
  let values : List ℚ :=
    [scores.commentDensity, scores.codeStructureScore, scores.namingPatternScore,
     scores.complexityScore, scores.uniformityScore]
  let avg : ℚ := values.sum / (values.length : ℚ)
  let variance : ℚ := (values.map (fun v => (v - avg) ^ 2)).sum / (values.length : ℚ)
  let stdDev : ℝ := Real.sqrt (variance : ℝ)
  max 50 (min 100 (100 - stdDev * 1.5))

/-- The metric bundle computed by `analyzeCode` before aggregation. -/
def metrics (code : Text) : MetricBundle :=
  { commentDensity := calculateCommentDensity code
    codeStructureScore := analyzeCodeStructure code
    namingPatternScore := analyzeNamingPatterns code
    complexityScore := analyzeComplexity code
    uniformityScore := analyzeUniformity code }

/-- `DetectionEngine.analyzeCode` — the `language` parameter is accepted and
ignored, as in the source. -/
noncomputable def analyzeCode (code language : Text) : DetectionResult :=
  let m := metrics code
  { aiProbability := round2Q (calculateAIProbability m)
    detectionMethod := "hybrid-analysis"
    confidenceScore := round2R (calculateConfidence m)
    analysisDetails :=
      { commentDensity := round2Q m.commentDensity
        codeStructureScore := round2Q m.codeStructureScore
        namingPatternScore := round2Q m.namingPatternScore
        complexityScore := round2Q m.complexityScore
        uniformityScore := round2Q m.uniformityScore } }

end DetectionEngine

/-! ### Pattern analyzer (`patternAnalyzer.ts`) -/

/-- Severity levels of a detected pattern. -/
inductive Severity
  | high
  | medium
  | low
deriving DecidableEq

/-- A named pattern found in the text (`CodePattern` of the source). -/
structure CodePattern where
  patternType : String
  patternName : String
  severity : Severity
  description : String
  lineNumbers : List Nat
deriving DecidableEq

namespace PatternAnalyzer

/-- Matcher for `(?:const|let|var)\s+([a-z][a-zA-Z]{8,})`: a binding keyword,
white space, then a lower-case letter followed by at least 8 more letters
(greedy; digits and underscores are not in the class). -/
def matchDescVarAt (s : Text) : Option Text :=
  let kwRest :=
    match eatLit "const".data s with
    | some r => some r
    | none =>
      match eatLit "let".data s with
      | some r => some r
      | none => eatLit "var".data s
  match kwRest.bind eatWs1 with
  | some (c :: cs) =>
    if isAsciiLower c then
      let tailRun := cs.takeWhile isAsciiAlpha
      if tailRun.length ≥ 8 then some (cs.drop tailRun.length) else none
    else none
  | _ => none

/-- `detectAIPatterns`: excessive comments, perfect indentation, overly
descriptive names. -/
def detectAIPatterns (code : Text) : List CodePattern :=
  let lines := splitLines code
  let excessiveCommenting := lines.filter (fun line =>
    let trimmed := trim line
    startsWith "//".data trimmed || startsWith "/*".data trimmed)
  let p1 : List CodePattern :=
    if (excessiveCommenting.length : ℚ) > (lines.length : ℚ) * (3 / 10) then
      [{ patternType := "ai-indicator"
         patternName := "Excessive Comments"
         severity := .medium
         description := "High comment density may indicate AI-generated code"
         lineNumbers := (List.range excessiveCommenting.length).map (fun idx => idx + 1) }]
    else []
  let perfectIndentation := lines.all (fun line =>
    if (trim line).length = 0 then true
    else (line.takeWhile isSpaceChar).length % 2 = 0)
  let p2 : List CodePattern :=
    if perfectIndentation ∧ lines.length > 10 then
      [{ patternType := "ai-indicator"
         patternName := "Perfect Formatting"
         severity := .low
         description := "Consistently perfect formatting across all lines"
         lineNumbers := [] }]
    else []
  let p3 : List CodePattern :=
    if countMatches matchDescVarAt code > 5 then
      [{ patternType := "ai-indicator"
         patternName := "Overly Descriptive Names"
         severity := .low
         description := "Variable names are unusually descriptive and verbose"
         lineNumbers := [] }]
    else []
  p1 ++ p2 ++ p3

/-- `/\w+\+\w+|\w+\-\w+|\w+=\w+/` matches exactly when some operator among
`+`, `-`, `=` has a word character on both sides. -/
def hasInconsistentSpacing (code : Text) : Bool :=
  code.tails.any (fun t =>
    match t with
    | a :: b :: c :: _ =>
      isWordChar a && (b = '+' || b = '-' || b = '=') && isWordChar c
    | _ => false)

/-- `detectStylePatterns`: long lines and inconsistent spacing. -/
def detectStylePatterns (code : Text) : List CodePattern :=
  let lines := splitLines code
  let longLines := (lines.enum.map (fun p => (p.2, p.1 + 1))).filter
    (fun p => p.1.length > 120)
  let p1 : List CodePattern :=
    if longLines.length > 0 then
      [{ patternType := "style"
         patternName := "Long Lines"
         severity := .low
         description := "Lines exceed recommended length of 120 characters"
         lineNumbers := longLines.map (fun p => p.2) }]
    else []
  let p2 : List CodePattern :=
    if hasInconsistentSpacing code then
      [{ patternType := "style"
         patternName := "Inconsistent Spacing"
         severity := .low
         description := "Operators lack proper spacing"
         lineNumbers := [] }]
    else []
  p1 ++ p2

/-- Matcher for `\{\s*if|if.*\{\s*if|for.*\{\s*for`, alternatives in source
order, `.` not matching a newline, `.*` greedy. -/
def matchNestedAt (s : Text) : Option Text :=
  let braceThenIf : Text → Option Text := fun t =>
    match t with
    | c :: r =>
      if c = lbrace then eatLit "if".data (r.dropWhile isSpaceChar) else none
    | [] => none
  let braceThenFor : Text → Option Text := fun t =>
    match t with
    | c :: r =>
      if c = lbrace then eatLit "for".data (r.dropWhile isSpaceChar) else none
    | [] => none
  match braceThenIf s with
  | some r => some r
  | none =>
    match (eatLit "if".data s).bind (greedyDotThen braceThenIf) with
    | some r => some r
    | none => (eatLit "for".data s).bind (greedyDotThen braceThenFor)

/-- The long-function brace-balance scan of `findLongFunctions`. -/
structure LFState where
  nums : List Nat
  inFunction : Bool
  functionStart : Nat
  braceCount : Int

/-- One `forEach` step of `findLongFunctions` at 0-based index `idx`. -/
def lfStep (st : LFState) (idx : Nat) (line : Text) : LFState :=
  let trimmed := trim line
  let st :=
    if (trimmed.tails.any (fun t => (DetectionEngine.matchFunctionLikeAt t).isSome)) then
      { st with inFunction := true, functionStart := idx + 1, braceCount := 0 }
    else st
  if st.inFunction then
    let braceCount := st.braceCount + (line.count lbrace : Int) - (line.count rbrace : Int)
    if braceCount = 0 ∧ trimmed.contains rbrace then
      let functionLength : Int := (idx : Int) - (st.functionStart : Int) + 2
      let nums :=
        if functionLength > 50 then
          st.nums ++ List.range' st.functionStart (idx + 2 - st.functionStart)
        else st.nums
      { st with nums := nums, braceCount := braceCount, inFunction := false }
    else { st with braceCount := braceCount }
  else st

/-- `findLongFunctions`: line numbers of every function body whose scan length
exceeds 50 lines. -/
def findLongFunctions (lines : List Text) : List Nat :=
  (lines.enum.foldl (fun st p => lfStep st p.1 p.2)
    { nums := [], inFunction := false, functionStart := 0, braceCount := 0 }).nums

/-- `detectComplexityPatterns`: deep nesting, many functions, long
function. -/
def detectComplexityPatterns (code : Text) : List CodePattern :=
  let lines := splitLines code
  let p1 : List CodePattern :=
    if countMatches matchNestedAt code > 3 then
      [{ patternType := "complexity"
         patternName := "Deep Nesting"
         severity := .high
         description := "Multiple levels of nested blocks increase complexity"
         lineNumbers := [] }]
    else []
  let p2 : List CodePattern :=
    if countMatches DetectionEngine.matchFunctionLikeAt code > 10 then
      [{ patternType := "complexity"
         patternName := "Many Functions"
         severity := .medium
         description := "File contains many functions, consider splitting into modules"
         lineNumbers := [] }]
    else []
  let longFunction := findLongFunctions lines
  let p3 : List CodePattern :=
    if longFunction.length > 0 then
      [{ patternType := "complexity"
         patternName := "Long Function"
         severity := .medium
         description := "Function exceeds 50 lines, consider refactoring"
         lineNumbers := longFunction }]
    else []
  p1 ++ p2 ++ p3

/-- Matcher for the credential-assignment regex
`(?:kw1|kw2|…)\s*=\s*['"][^'"]+['"]` with flag `i`: one of the keywords
(case-insensitively), optional white space, `=`, optional white space, a
quote, at least one non-quote character (greedy; the character ending the
maximal run is a quote or the end of input, so maximal munch is exact), and a
closing quote of either kind. -/
def matchCredAt (kws : List Text) (s : Text) : Bool :=
  kws.any (fun kw =>
    match eatLitCI kw s with
    | none => false
    | some r1 =>
      match r1.dropWhile isSpaceChar with
      | '=' :: r3 =>
        match r3.dropWhile isSpaceChar with
        | q :: r5 =>
          if isQuoteChar q then
            let body := r5.takeWhile (fun c => !isQuoteChar c)
            decide (body.length ≥ 1) &&
              (match r5.drop body.length with
               | q2 :: _ => isQuoteChar q2
               | [] => false)
          else false
        | [] => false
      | _ => false)

/-- Keywords of the pattern analyzer's credential regex
(`password|secret|apikey|token`). -/
def credKeywordsPA : List Text :=
  ["password".data, "secret".data, "apikey".data, "token".data]

/-- `test` of the pattern analyzer's `hardcodedSecrets` regex. -/
def hardcodedSecretsTest (code : Text) : Bool :=
  code.tails.any (matchCredAt credKeywordsPA)

/-- The four SQL keywords of the injection regex. -/
def sqlKeywords : List Text :=
  ["SELECT".data, "INSERT".data, "UPDATE".data, "DELETE".data]

/-- Matcher for `['"]\s*\+\s*\w+\s*\+\s*['"].*(?:SELECT|INSERT|UPDATE|DELETE)`
with flag `i`. -/
def matchSqlAt (s : Text) : Bool :=
  match s with
  | q :: r1 =>
    if isQuoteChar q then
      match r1.dropWhile isSpaceChar with
      | '+' :: r2 =>
        match eatWord1 (r2.dropWhile isSpaceChar) with
        | some r3 =>
          match r3.dropWhile isSpaceChar with
          | '+' :: r4 =>
            match r4.dropWhile isSpaceChar with
            | q2 :: r5 =>
              if isQuoteChar q2 then
                (r5.takeWhile (fun c => c ≠ '\n')).tails.any (fun t =>
                  sqlKeywords.any (fun kw => (eatLitCI kw t).isSome))
              else false
            | [] => false
          | _ => false
        | none => false
      | _ => false
    else false
  | [] => false

/-- `test` of the SQL-injection regex. -/
def sqlInjectionTest (code : Text) : Bool :=
  code.tails.any matchSqlAt

/-- `test` of `/eval\s*\(/`. -/
def evalUsageTest (code : Text) : Bool :=
  code.tails.any (fun s =>
    match eatLit "eval".data s with
    | some r =>
      match r.dropWhile isSpaceChar with
      | '(' :: _ => true
      | _ => false
    | none => false)

/-- `detectSecurityPatterns`: hardcoded credentials, SQL injection risk,
eval usage. -/
def detectSecurityPatterns (code : Text) : List CodePattern :=
  let p1 : List CodePattern :=
    if hardcodedSecretsTest code then
      [{ patternType := "security"
         patternName := "Hardcoded Credentials"
         severity := .high
         description := "Potential hardcoded credentials detected"
         lineNumbers := [] }]
    else []
  let p2 : List CodePattern :=
    if sqlInjectionTest code then
      [{ patternType := "security"
         patternName := "SQL Injection Risk"
         severity := .high
         description := "String concatenation in SQL queries detected"
         lineNumbers := [] }]
    else []
  let p3 : List CodePattern :=
    if evalUsageTest code then
      [{ patternType := "security"
         patternName := "Eval Usage"
         severity := .high
         description := "Use of eval() is a security risk"
         lineNumbers := [] }]
    else []
  p1 ++ p2 ++ p3

/-- `PatternAnalyzer.detectPatterns` — the `language` parameter is accepted
and ignored, as in the source. -/
def detectPatterns (code language : Text) : List CodePattern :=
  detectAIPatterns code ++ detectStylePatterns code ++
  detectComplexityPatterns code ++ detectSecurityPatterns code

end PatternAnalyzer

/-! ### Suggestion generator (`suggestionGenerator.ts`) -/

/-- Category of a developer suggestion. -/
inductive SuggestionType
  | refactor
  | security
  | performance
  | style
deriving DecidableEq

/-- Priority of a developer suggestion. -/
inductive Priority
  | high
  | medium
  | low
deriving DecidableEq

/-- A templated improvement suggestion (`DeveloperSuggestion` of the source). -/
structure DeveloperSuggestion where
  suggestionType : SuggestionType
  title : String
  description : String
  codeSnippet : String
  priority : Priority
deriving DecidableEq

namespace SuggestionGenerator

/-- Matcher for `for\s*\([^)]+\)\s*\{[^}]{50,}\}` (each greedy class is
followed by the character that terminates it, so maximal munch is exact). -/
def matchForBigBodyAt (s : Text) : Option Text :=
  match eatLit "for".data s with
  | none => none
  | some r1 =>
    match r1.dropWhile isSpaceChar with
    | '(' :: r2 =>
      let args := r2.takeWhile (fun c => c ≠ ')')
      if args.length ≥ 1 then
        match r2.drop args.length with
        | ')' :: r3 =>
          match r3.dropWhile isSpaceChar with
          | b :: r4 =>
            if b = lbrace then
              let body := r4.takeWhile (fun c => c ≠ rbrace)
              if body.length ≥ 50 then
                match r4.drop body.length with
                | b2 :: r5 => if b2 = rbrace then some r5 else none
                | [] => none
              else none
            else none
          | [] => none
        | _ => none
      else none
    | _ => none

/-- Matcher for `if\s*\(`. -/
def matchIfOpenAt (s : Text) : Option Text :=
  match eatLit "if".data s with
  | none => none
  | some r1 =>
    match r1.dropWhile isSpaceChar with
    | '(' :: r2 => some r2
    | _ => none

/-- `generateRefactoringSuggestions`.  The third trigger evaluates
`code.match(/if\s*\(/g)!.length` under a non-null assertion: when the text
contains `"if"` but the regex has no match, `match` returns `null` and the
property access throws a `TypeError`.  The thrown case is modelled as
`none`. -/
def generateRefactoringSuggestions (code : Text) : Option (List DeveloperSuggestion) :=
  let s1 : List DeveloperSuggestion :=
    if containsSub "function".data code ∧ code.length > 500 then
      [{ suggestionType := .refactor
         title := "Extract Functions"
         description := "Consider breaking down large functions into smaller, reusable components for better maintainability."
         codeSnippet := "// Before:\nfunction largeFunction() \x7b\n  // 100+ lines\n\x7d\n\n// After:\nfunction mainFunction() \x7b\n  validateInput();\n  processData();\n  formatOutput();\n\x7d\n\nfunction validateInput() \x7b ... \x7d\nfunction processData() \x7b ... \x7d"
         priority := .medium }]
    else []
  let s2 : List DeveloperSuggestion :=
    if countMatches matchForBigBodyAt code > 2 then
      [{ suggestionType := .refactor
         title := "Extract Repeated Logic"
         description := "Similar code blocks detected. Consider extracting into a reusable helper function."
         codeSnippet := "// Extract common logic:\nfunction processItem(item) \x7b\n  // Common processing logic\n  return transformedItem;\n\x7d\n\n// Use in multiple places:\nitems.forEach(item => processItem(item));"
         priority := .medium }]
    else []
  if containsSub "if".data code ∧ countMatches matchIfOpenAt code = 0 then
    none
  else
    let s3 : List DeveloperSuggestion :=
      if containsSub "if".data code ∧ countMatches matchIfOpenAt code > 5 then
        [{ suggestionType := .refactor
           title := "Simplify Conditional Logic"
           description := "Multiple conditional statements detected. Consider using strategy pattern or lookup tables."
           codeSnippet := "// Instead of multiple ifs:\nconst handlers = \x7b\n  \x27type1\x27: handleType1,\n  \x27type2\x27: handleType2,\n  \x27type3\x27: handleType3\n\x7d;\n\nhandlers[type]?.();"
           priority := .low }]
      else []
    some (s1 ++ s2 ++ s3)

/-- Keywords of the suggestion generator's credential regex
(`password|secret|apikey` — without `token`). -/
def credKeywordsSG : List Text :=
  ["password".data, "secret".data, "apikey".data]

/-- `test` of the suggestion generator's credential regex. -/
def credentialSuggestionTest (code : Text) : Bool :=
  code.tails.any (PatternAnalyzer.matchCredAt credKeywordsSG)

/-- `test` of `/innerHTML\s*=/`. -/
def innerHtmlTest (code : Text) : Bool :=
  code.tails.any (fun s =>
    match eatLit "innerHTML".data s with
    | some r =>
      match r.dropWhile isSpaceChar with
      | '=' :: _ => true
      | _ => false
    | none => false)

/-- `generateSecuritySuggestions`. -/
def generateSecuritySuggestions (code : Text) : List DeveloperSuggestion :=
  let s1 : List DeveloperSuggestion :=
    if credentialSuggestionTest code then
      [{ suggestionType := .security
         title := "Remove Hardcoded Credentials"
         description := "Credentials should be stored in environment variables, not hardcoded in source code."
         codeSnippet := "// Instead of:\nconst apiKey = \x22hardcoded-key\x22;\n\n// Use:\nconst apiKey = import.meta.env.VITE_API_KEY;"
         priority := .high }]
    else []
  let s2 : List DeveloperSuggestion :=
    if PatternAnalyzer.evalUsageTest code then
      [{ suggestionType := .security
         title := "Avoid eval()"
         description := "Using eval() is dangerous and can lead to code injection attacks. Use safer alternatives."
         codeSnippet := "// Instead of eval, use:\nconst result = JSON.parse(jsonString);\n// or\nconst fn = new Function(\x27return \x27 + expression)();"
         priority := .high }]
    else []
  let s3 : List DeveloperSuggestion :=
    if innerHtmlTest code then
      [{ suggestionType := .security
         title := "XSS Risk with innerHTML"
         description := "Using innerHTML with user input can lead to XSS attacks. Use textContent or sanitize input."
         codeSnippet := "// Safer approach:\nelement.textContent = userInput;\n// Or use a sanitization library:\nelement.innerHTML = DOMPurify.sanitize(userInput);"
         priority := .high }]
    else []
  s1 ++ s2 ++ s3

/-- Matcher for `for\s*\(`. -/
def matchForOpenAt (s : Text) : Option Text :=
  match eatLit "for".data s with
  | none => none
  | some r1 =>
    match r1.dropWhile isSpaceChar with
    | '(' :: r2 => some r2
    | _ => none

/-- Scan for `for\s*\(` without crossing a closing brace — the `[^}]*for…`
tail of the nested-loop regex, trying every split of `[^}]*` as a
backtracking engine does (`f` is not `\x7d`, so a match cannot start on a
closing brace). -/
def scanForOpenNoBrace : Text → Bool
  | [] => false
  | c :: cs =>
    if c = rbrace then false
    else (matchForOpenAt (c :: cs)).isSome || scanForOpenNoBrace cs

/-- `test` of `/for\s*\([^)]+\)\s*\{[^}]*for\s*\(/`: a `for (…) {` header
whose body region, before any closing brace, contains `for\s*\(`. -/
def nestedLoopTest (code : Text) : Bool :=
  code.tails.any (fun s =>
    match eatLit "for".data s with
    | none => false
    | some r1 =>
      match r1.dropWhile isSpaceChar with
      | '(' :: r2 =>
        let args := r2.takeWhile (fun c => c ≠ ')')
        decide (args.length ≥ 1) &&
          (match r2.drop args.length with
           | ')' :: r3 =>
             match r3.dropWhile isSpaceChar with
             | b :: r4 => b = lbrace && scanForOpenNoBrace r4
             | [] => false
           | _ => false)
      | _ => false)

/-- `test` of `/\.map\([^)]+\)\.filter\(/`. -/
def mapFilterTest (code : Text) : Bool :=
  code.tails.any (fun s =>
    match eatLit ".map(".data s with
    | none => false
    | some r1 =>
      let args := r1.takeWhile (fun c => c ≠ ')')
      decide (args.length ≥ 1) &&
        (match r1.drop args.length with
         | ')' :: r2 => (eatLit ".filter(".data r2).isSome
         | _ => false))

/-- Matcher for `document\.querySelector|document\.getElementById`. -/
def matchDomQueryAt (s : Text) : Option Text :=
  match eatLit "document.querySelector".data s with
  | some r => some r
  | none => eatLit "document.getElementById".data s

/-- `generatePerformanceSuggestions`. -/
def generatePerformanceSuggestions (code : Text) : List DeveloperSuggestion :=
  let s1 : List DeveloperSuggestion :=
    if nestedLoopTest code then
      [{ suggestionType := .performance
         title := "Optimize Nested Loops"
         description := "Nested loops can have O(n²) complexity. Consider using hash maps or other data structures."
         codeSnippet := "// Instead of nested loops:\nconst map = new Map();\narray1.forEach(item => map.set(item.id, item));\narray2.forEach(item => \x7b\n  const match = map.get(item.id);\n\x7d);"
         priority := .medium }]
    else []
  let s2 : List DeveloperSuggestion :=
    if mapFilterTest code then
      [{ suggestionType := .performance
         title := "Combine Array Operations"
         description := "Chaining map and filter creates multiple iterations. Combine them for better performance."
         codeSnippet := "// Instead of:\narray.map(x => x * 2).filter(x => x > 10);\n\n// Use reduce:\narray.reduce((acc, x) => \x7b\n  const doubled = x * 2;\n  if (doubled > 10) acc.push(doubled);\n  return acc;\n\x7d, []);"
         priority := .low }]
    else []
  let s3 : List DeveloperSuggestion :=
    if countMatches matchDomQueryAt code > 3 then
      [{ suggestionType := .performance
         title := "Cache DOM Queries"
         description := "Multiple DOM queries detected. Cache references to improve performance."
         codeSnippet := "// Cache DOM references:\nconst element = document.querySelector(\x27.my-element\x27);\n// Reuse the cached reference\nelement.classList.add(\x27active\x27);"
         priority := .medium }]
    else []
  s1 ++ s2 ++ s3

/-- `test` of `/var\s+\w+/`. -/
def varDeclTest (code : Text) : Bool :=
  code.tails.any (fun s => (((eatLit "var".data s).bind eatWs1).bind eatWord1).isSome)

/-- Matcher for `function\s+\w+\s*\([^)]*\)\s*\{` (the argument class may be
empty). -/
def matchFunctionHeadAt (s : Text) : Option Text :=
  match ((eatLit "function".data s).bind eatWs1).bind eatWord1 with
  | none => none
  | some r1 =>
    match r1.dropWhile isSpaceChar with
    | '(' :: r2 =>
      let args := r2.takeWhile (fun c => c ≠ ')')
      match r2.drop args.length with
      | ')' :: r3 =>
        match r3.dropWhile isSpaceChar with
        | b :: r4 => if b = lbrace then some r4 else none
        | [] => none
      | _ => none
    | _ => none

/-- Matcher for `function\s+\w+\s*\([^)]*\)\s*\{[^}]{0,50}\}`: a function
header whose body run up to the first closing brace has at most 50
characters and is in fact closed. -/
def matchShortFunctionAt (s : Text) : Option Text :=
  match matchFunctionHeadAt s with
  | none => none
  | some r4 =>
    let body := r4.takeWhile (fun c => c ≠ rbrace)
    if body.length ≤ 50 then
      match r4.drop body.length with
      | b2 :: r5 => if b2 = rbrace then some r5 else none
      | [] => none
    else none

/-- `generateStyleSuggestions`. -/
def generateStyleSuggestions (code : Text) : List DeveloperSuggestion :=
  let s1 : List DeveloperSuggestion :=
    if varDeclTest code then
      [{ suggestionType := .style
         title := "Use const/let Instead of var"
         description := "Modern JavaScript uses const and let for better scoping and immutability."
         codeSnippet := "// Instead of:\nvar count = 0;\n\n// Use:\nconst count = 0; // for values that won\x27t change\nlet counter = 0; // for values that will change"
         priority := .low }]
    else []
  let s2 : List DeveloperSuggestion :=
    if testMatch matchFunctionHeadAt code ∧ countMatches matchShortFunctionAt code > 0 then
      [{ suggestionType := .style
         title := "Consider Arrow Functions"
         description := "For simple functions, arrow functions provide cleaner syntax."
         codeSnippet := "// Instead of:\nfunction add(a, b) \x7b\n  return a + b;\n\x7d\n\n// Use:\nconst add = (a, b) => a + b;"
         priority := .low }]
    else []
  let s3 : List DeveloperSuggestion :=
    if (splitLines code).any (fun line => line.length > 120) then
      [{ suggestionType := .style
         title := "Line Length"
         description := "Some lines exceed 120 characters. Break them down for better readability."
         codeSnippet := "// Break long lines:\nconst result = veryLongFunction(\n  parameter1,\n  parameter2,\n  parameter3\n);"
         priority := .low }]
    else []
  s1 ++ s2 ++ s3

/-- `SuggestionGenerator.generateSuggestions` — `none` models the
`TypeError` thrown by the refactoring group's non-null assertion; the
`language` parameter is accepted and ignored, as in the source. -/
def generateSuggestions (code language : Text) : Option (List DeveloperSuggestion) :=
  match generateRefactoringSuggestions code with
  | none => none
  | some refactoring =>
    some (refactoring ++ generateSecuritySuggestions code ++
      generatePerformanceSuggestions code ++ generateStyleSuggestions code)

end SuggestionGenerator

/-! ### Analysis coordinator (`codeAnalysisService.ts`)

`analyzeCode` persists the submission and the three engines' outputs through
the external Supabase collaborator and then builds its return value from the
engines' outputs alone.  The persistence calls and the externally assigned
`submissionId` are outside the core (spec §1, §6); the embedding models the
returned record's analytical content.  Note the return value projects each
pattern to four fields (dropping `lineNumbers`) and each suggestion to four
fields (dropping `codeSnippet`). -/

/-- A pattern as it appears in the coordinator's returned `AnalysisResult`:
`{type, name, severity, description}` — no `lineNumbers` field. -/
structure ResultPattern where
  type : String
  name : String
  severity : Severity
  description : String
deriving DecidableEq

/-- A suggestion as it appears in the coordinator's returned
`AnalysisResult`: `{type, title, description, priority}` — no `codeSnippet`
field. -/
structure ResultSuggestion where
  type : SuggestionType
  title : String
  description : String
  priority : Priority
deriving DecidableEq

/-- The coordinator's returned record (without the externally assigned
`submissionId`). -/
structure AnalysisResult where
  aiProbability : ℚ
  confidenceScore : ℝ
  patterns : List ResultPattern
  suggestions : List ResultSuggestion

namespace CodeAnalysisService

/-- The rows inserted into the `code_patterns` table: the full `CodePattern`
records, `lineNumbers` included. -/
def persistedPatterns (code language : Text) : List CodePattern :=
  PatternAnalyzer.detectPatterns code language

/-- The rows inserted into the `developer_suggestions` table (when the
suggestion generator does not throw): the full `DeveloperSuggestion`
records, `codeSnippet` included. -/
def persistedSuggestions (code language : Text) : Option (List DeveloperSuggestion) :=
  SuggestionGenerator.generateSuggestions code language

/-- `analyzeCode` of the coordinator: runs the three engines once each on the
unmodified text and assembles the returned record; `none` models the
propagated engine exception. -/
noncomputable def analyzeCode (code language : Text) : Option AnalysisResult :=
  let detectionResult := DetectionEngine.analyzeCode code language
  let patterns := PatternAnalyzer.detectPatterns code language
  match SuggestionGenerator.generateSuggestions code language with
  | none => none
  | some suggestions =>
    some
      { aiProbability := detectionResult.aiProbability
        confidenceScore := detectionResult.confidenceScore
        patterns := patterns.map (fun p =>
          { type := p.patternType, name := p.patternName,
            severity := p.severity, description := p.description })
        suggestions := suggestions.map (fun s =>
          { type := s.suggestionType, title := s.title,
            description := s.description, priority := s.priority }) }

end CodeAnalysisService

/-! ### Claim C1 — totality of the core engines -/

/-- C1: The claim states that every core engine call completes normally on
every string input, with no null-dereference propagating out.  The detection
engine and the pattern analyzer are total, but the suggestion generator's
third refactoring trigger evaluates `code.match(/if\s*\(/g)!.length` under a
non-null assertion: on the input `"if"` the text contains `"if"` while the
regex `if\s*\(` has no match, so `match` returns `null` and the member access
throws a `TypeError` that propagates out of
`SuggestionGenerator.generateSuggestions`.  The thrown case is `none` in the
embedding; this theorem evaluates the engine at the failing input. -/
theorem c1_generateSuggestions_throws_on_if :
    SuggestionGenerator.generateSuggestions "if".data "javascript".data = none := by
  with_unfolding_all decide

/-! ### Claim C2 — credential pattern vs credential suggestion -/

/-- The input refuting C2: a quoted literal assigned to `token`. -/
def c2_input : Text := "token = \x22abc\x22".data

/-- C2 counterexample: on `token = "abc"` the pattern analyzer emits the
`Hardcoded Credentials` pattern (its regex lists `token`), but the suggestion
generator does not emit `Remove Hardcoded Credentials` (its regex lists only
`password|secret|apikey`), refuting the claimed equivalence. -/
theorem c2_token_pattern_without_suggestion :
    ((PatternAnalyzer.detectPatterns c2_input "js".data).any
        (fun p => p.patternName == "Hardcoded Credentials")) = true
  ∧ (SuggestionGenerator.generateSuggestions c2_input "js".data).map
        (fun l => l.any (fun s => s.title == "Remove Hardcoded Credentials")) = some false := by
  with_unfolding_all decide

/-- No refactoring suggestion is titled `Remove Hardcoded Credentials`. -/
lemma refactoring_no_RHC {code : Text} {l : List DeveloperSuggestion}
    (h : SuggestionGenerator.generateRefactoringSuggestions code = some l) :
    l.any (fun s => s.title == "Remove Hardcoded Credentials") = false := by
  unfold SuggestionGenerator.generateRefactoringSuggestions at h
  dsimp only at h
  split_ifs at h <;> (injection h with h'; subst h'; decide)

/-- The security group contains the `Remove Hardcoded Credentials` title
exactly when its credential regex matches. -/
lemma security_any_RHC (code : Text) :
    (SuggestionGenerator.generateSecuritySuggestions code).any
      (fun s => s.title == "Remove Hardcoded Credentials") =
    SuggestionGenerator.credentialSuggestionTest code := by
  unfold SuggestionGenerator.generateSecuritySuggestions
  cases h1 : SuggestionGenerator.credentialSuggestionTest code <;>
  cases h2 : PatternAnalyzer.evalUsageTest code <;>
  cases h3 : SuggestionGenerator.innerHtmlTest code <;>
  simp only [h1, h2, h3, if_true, if_false, Bool.false_eq_true, ite_true, ite_false] <;>
  decide

/-- No performance suggestion is titled `Remove Hardcoded Credentials`. -/
lemma performance_no_RHC (code : Text) :
    (SuggestionGenerator.generatePerformanceSuggestions code).any
      (fun s => s.title == "Remove Hardcoded Credentials") = false := by
  unfold SuggestionGenerator.generatePerformanceSuggestions
  cases h1 : SuggestionGenerator.nestedLoopTest code <;>
  cases h2 : SuggestionGenerator.mapFilterTest code <;>
  cases h3 : decide (countMatches SuggestionGenerator.matchDomQueryAt code > 3) <;>
  simp only [h1, h2, h3, if_true, if_false, Bool.false_eq_true, ite_true, ite_false] <;>
  first | decide | (split_ifs <;> decide)

/-- No style suggestion is titled `Remove Hardcoded Credentials`. -/
lemma style_no_RHC (code : Text) :
    (SuggestionGenerator.generateStyleSuggestions code).any
      (fun s => s.title == "Remove Hardcoded Credentials") = false := by
  unfold SuggestionGenerator.generateStyleSuggestions
  split_ifs <;> decide

/-- The suggestion generator's credential keywords are a subset of the
pattern analyzer's, so a suggestion-side credential match implies a
pattern-side one. -/
lemma credTest_mono {code : Text}
    (h : SuggestionGenerator.credentialSuggestionTest code = true) :
    PatternAnalyzer.hardcodedSecretsTest code = true := by
  unfold SuggestionGenerator.credentialSuggestionTest at h
  unfold PatternAnalyzer.hardcodedSecretsTest
  rw [List.any_eq_true] at h ⊢
  obtain ⟨t, ht, hm⟩ := h
  refine ⟨t, ht, ?_⟩
  unfold PatternAnalyzer.matchCredAt at hm ⊢
  unfold SuggestionGenerator.credKeywordsSG at hm
  unfold PatternAnalyzer.credKeywordsPA
  simp only [List.any_cons, List.any_nil, Bool.or_eq_true] at hm ⊢
  tauto

/-- C2 amended: the two triggers are not the same shape — the pattern
analyzer's regex lists `password|secret|apikey|token` while the suggestion
generator's lists only `password|secret|apikey` — so the equivalence holds in
one direction only: whenever the suggestion generator emits `Remove
Hardcoded Credentials`, the pattern analyzer emits `Hardcoded Credentials`;
the converse fails on `token` assignments (see the counterexample). -/
theorem c2_suggestion_implies_pattern (code lang : Text) (suggs : List DeveloperSuggestion)
    (h : SuggestionGenerator.generateSuggestions code lang = some suggs)
    (h2 : suggs.any (fun s => s.title == "Remove Hardcoded Credentials") = true) :
    (PatternAnalyzer.detectPatterns code lang).any
      (fun p => p.patternName == "Hardcoded Credentials") = true := by
  unfold SuggestionGenerator.generateSuggestions at h
  cases hr : SuggestionGenerator.generateRefactoringSuggestions code with
  | none => rw [hr] at h; exact absurd h (by simp)
  | some r =>
    rw [hr] at h
    injection h with h'
    subst h'
    rw [List.any_append, List.any_append, List.any_append] at h2
    rw [refactoring_no_RHC hr, security_any_RHC, performance_no_RHC, style_no_RHC] at h2
    simp only [Bool.or_false, Bool.false_or] at h2
    have hp := credTest_mono h2
    simp [PatternAnalyzer.detectPatterns, PatternAnalyzer.detectSecurityPatterns, hp]

/-- A credential assignment matched by both engines' regexes, used to
instantiate `c2_suggestion_implies_pattern`. -/
def c2_witness_input : Text := "password = \x22x\x22".data

/-- C2 amended, witness: on `password = "x"` the suggestion generator emits
`Remove Hardcoded Credentials`, and the implication yields the
`Hardcoded Credentials` pattern. -/
theorem c2_suggestion_implies_pattern_witness :
    (PatternAnalyzer.detectPatterns c2_witness_input "js".data).any
      (fun p => p.patternName == "Hardcoded Credentials") = true :=
  c2_suggestion_implies_pattern c2_witness_input "js".data
    ((SuggestionGenerator.generateSuggestions c2_witness_input "js".data).getD [])
    (by with_unfolding_all decide) (by with_unfolding_all decide)

/-! ### Claim C3 — what the coordinator's result record carries -/

/-- A single 121-character line: triggers exactly one `Long Lines` pattern
with `lineNumbers = [1]`. -/
def c3_left : Text := List.replicate 121 'a'

/-- A blank line followed by the same 121-character line: the `Long Lines`
pattern now has `lineNumbers = [2]`. -/
def c3_right : Text := '\n' :: List.replicate 121 'a'

/-- C3 counterexample: the two inputs produce different full `CodePattern`
lists (they differ in `lineNumbers`), yet the coordinator's returned
`AnalysisResult` carries identical pattern records for both, because the
returned record projects each pattern to `{type, name, severity,
description}` and drops `lineNumbers` — so the returned result is not a
lossless serialization of the full `CodePattern` records. -/
theorem c3_lineNumbers_lost_in_result :
    PatternAnalyzer.detectPatterns c3_left [] ≠ PatternAnalyzer.detectPatterns c3_right []
  ∧ (CodeAnalysisService.analyzeCode c3_left []).map AnalysisResult.patterns
      = (CodeAnalysisService.analyzeCode c3_right []).map AnalysisResult.patterns := by
  with_unfolding_all decide

/-- C3 amended: the coordinator's returned record carries the detection
engine's two scores, every pattern projected to `{type, name, severity,
description}` (without `lineNumbers`), and every suggestion projected to
`{type, title, description, priority}` (without `codeSnippet`); the full
records, `lineNumbers` and `codeSnippet` included, go only to the external
persistence collaborator. -/
theorem c3_result_is_projection (code lang : Text) :
    CodeAnalysisService.analyzeCode code lang =
      (SuggestionGenerator.generateSuggestions code lang).map (fun suggestions =>
        { aiProbability := (DetectionEngine.analyzeCode code lang).aiProbability
          confidenceScore := (DetectionEngine.analyzeCode code lang).confidenceScore
          patterns := (PatternAnalyzer.detectPatterns code lang).map (fun p =>
            { type := p.patternType, name := p.patternName,
              severity := p.severity, description := p.description })
          suggestions := suggestions.map (fun s =>
            { type := s.suggestionType, title := s.title,
              description := s.description, priority := s.priority }) }) := by
  unfold CodeAnalysisService.analyzeCode
  cases SuggestionGenerator.generateSuggestions code lang <;> rfl

/-! ### Claim C4 — the comment-density bucket -/

/-- The comment-density extractor as claim C4 states it: the density is
`commentLines / nonBlankLines * 100`, taken to be 0 when there are no
non-blank lines, and the bucket rule `>30 → 75`, `<5 → 20`, else `50` is
applied to it unconditionally. -/
def claimCommentDensity (code : Text) : ℚ :=
  let lines := splitLines code
  let commentLines := (lines.filter (fun line =>
    startsWith "//".data (trim line) || startsWith "/*".data (trim line) ||
    startsWith "*".data (trim line) || startsWith "#".data (trim line))).length
  let totalLines := (lines.filter (fun line => (trim line).length > 0)).length
  let density : ℚ :=
    if totalLines = 0 then 0 else ((commentLines : ℚ) / (totalLines : ℚ)) * 100
  if density > 30 then 75 else if density < 5 then 20 else 50

/-- C4 counterexample: on the empty string there is no non-blank line, the
claim's density is 0 and its bucket rule yields 20, but the source returns 0
outright from its zero-guard, never reaching the bucket. -/
theorem c4_empty_input_gives_zero_not_twenty :
    claimCommentDensity [] = 20
  ∧ DetectionEngine.calculateCommentDensity [] = 0
  ∧ DetectionEngine.calculateCommentDensity [] ≠ claimCommentDensity [] := by
  refine ⟨by with_unfolding_all decide, by with_unfolding_all decide, ?_⟩
  with_unfolding_all decide

/-- Scenario A of the spec: a 10-line snippet in which 4 lines start with
`//` and the remaining 6 are plain statements. -/
def scenarioA : Text :=
  "// a\n// b\n// c\n// d\nx = 1;\ny = 2;\nz = 3;\nw = 4;\nu = 5;\nv = 6;".data

/-- C4 amended: when there is at least one non-blank line the extractor
follows the claimed bucket rule on `density = commentLines / nonBlankLines *
100`; when there is no non-blank line it returns 0 (not the bucket value 20).
Scenario A (4 comment lines out of 10, density 40) yields bucket 75. -/
theorem c4_commentDensity_amended (code : Text) :
    (DetectionEngine.calculateCommentDensity code =
      (let lines := splitLines code
       let commentLines := (lines.filter (fun line =>
         startsWith "//".data (trim line) || startsWith "/*".data (trim line) ||
         startsWith "*".data (trim line) || startsWith "#".data (trim line))).length
       let totalLines := (lines.filter (fun line => (trim line).length > 0)).length
       if totalLines = 0 then 0
       else if ((commentLines : ℚ) / (totalLines : ℚ)) * 100 > 30 then 75
       else if ((commentLines : ℚ) / (totalLines : ℚ)) * 100 < 5 then 20
       else 50))
  ∧ DetectionEngine.calculateCommentDensity scenarioA = 75 := by
  constructor
  · unfold DetectionEngine.calculateCommentDensity
    rfl
  · with_unfolding_all decide

/-! ### Claim C5 — the long-function scenario -/

/-- Scenario C of the spec: a single function of 60 source lines with
balanced braces and no other triggers — a `function foo()` header opening a
brace, 58 body lines, and a closing brace on line 60. -/
def scenarioC : Text :=
  "function foo() \x7b".data ++
  (List.replicate 58 ('\n' :: " x();".data)).flatten ++ "\n\x7d".data

/-- C5: on the 60-line single-function scenario the pattern analyzer emits
exactly one pattern: a `medium`-severity `Long Function` whose `lineNumbers`
are 1 through 60.  Per the scan rule, the brace balance returns to 0 on the
0-based line index 59, the recorded length is `59 − 1 + 2 = 60 > 50`, and
the loop appends every line number from `functionStart = 1` to
`idx + 1 = 60` — the function's start line through its end line (the
`end line plus 1` of the claim counts the 0-based end index plus one). -/
theorem c5_long_function_scenario :
    PatternAnalyzer.detectPatterns scenarioC "typescript".data =
      [{ patternType := "complexity"
         patternName := "Long Function"
         severity := .medium
         description := "Function exceeds 50 lines, consider refactoring"
         lineNumbers := List.range' 1 60 }] := by
  with_unfolding_all decide

/-! ### Claim C6 — the aggregation formulas -/

/-- The population standard deviation of a list of rational values, as the
claim states it: the square root of the mean of squared deviations from the
mean. -/
noncomputable def popStdDev (values : List ℚ) : ℝ :=
  Real.sqrt (((values.map (fun v => (v - values.sum / (values.length : ℚ)) ^ 2)).sum /
    (values.length : ℚ) : ℚ))

/-- C6: for every input, `analyzeCode` returns `aiProbability` equal to
`clamp(0,100, 0.15·commentDensity + 0.25·codeStructureScore +
0.20·namingPatternScore + 0.20·complexityScore + 0.20·uniformityScore)`
rounded to two decimals, and `confidenceScore` equal to `clamp(50,100,
100 − 1.5·stddev)` of the five bucket values (population standard
deviation), rounded to two decimals. -/
theorem c6_aggregation_formulas (code lang : Text) :
    (DetectionEngine.analyzeCode code lang).aiProbability
      = round2Q (max 0 (min 100
          (0.15 * DetectionEngine.calculateCommentDensity code
           + 0.25 * DetectionEngine.analyzeCodeStructure code
           + 0.20 * DetectionEngine.analyzeNamingPatterns code
           + 0.20 * DetectionEngine.analyzeComplexity code
           + 0.20 * DetectionEngine.analyzeUniformity code)))
  ∧ (DetectionEngine.analyzeCode code lang).confidenceScore
      = round2R (max 50 (min 100 (100 - 1.5 * popStdDev
          [DetectionEngine.calculateCommentDensity code,
           DetectionEngine.analyzeCodeStructure code,
           DetectionEngine.analyzeNamingPatterns code,
           DetectionEngine.analyzeComplexity code,
           DetectionEngine.analyzeUniformity code]))) := by
  constructor
  · show round2Q (DetectionEngine.calculateAIProbability (DetectionEngine.metrics code)) = _
    unfold DetectionEngine.calculateAIProbability DetectionEngine.rawProbability
      DetectionEngine.metrics
    congr 1
    congr 1
    ring
  · show round2R (DetectionEngine.calculateConfidence (DetectionEngine.metrics code)) = _
    unfold DetectionEngine.calculateConfidence popStdDev DetectionEngine.metrics
    dsimp only
    have key : ∀ r : ℝ, 100 - r * 1.5 = 100 - 1.5 * r := fun r => by ring
    rw [key]

/-! ### Claim C7 — output ranges -/

/-- Rounding to two decimals is monotone (rational case). -/
lemma round2Q_mono {x y : ℚ} (h : x ≤ y) : round2Q x ≤ round2Q y := by
  unfold round2Q
  have h1 : (⌊x * 100 + 1 / 2⌋ : ℤ) ≤ ⌊y * 100 + 1 / 2⌋ := Int.floor_le_floor (by linarith)
  have h2 : ((⌊x * 100 + 1 / 2⌋ : ℤ) : ℚ) ≤ ((⌊y * 100 + 1 / 2⌋ : ℤ) : ℚ) := by
    exact_mod_cast h1
  linarith

/-- Rounding to two decimals is monotone (real case). -/
lemma round2R_mono {x y : ℝ} (h : x ≤ y) : round2R x ≤ round2R y := by
  unfold round2R
  have h1 : (⌊x * 100 + 1 / 2⌋ : ℤ) ≤ ⌊y * 100 + 1 / 2⌋ := Int.floor_le_floor (by linarith)
  have h2 : ((⌊x * 100 + 1 / 2⌋ : ℤ) : ℝ) ≤ ((⌊y * 100 + 1 / 2⌋ : ℤ) : ℝ) := by
    exact_mod_cast h1
  linarith

/-- Real rounding of a rational value agrees with rational rounding. -/
lemma round2R_of_rat (x : ℚ) : round2R (x : ℝ) = ((round2Q x : ℚ) : ℝ) := by
  unfold round2R round2Q
  have h : ((x * 100 + 1 / 2 : ℚ) : ℝ) = (x : ℝ) * 100 + 1 / 2 := by push_cast; ring
  rw [← h, Rat.floor_cast]
  push_cast
  ring

/-- 50 is a fixed point of two-decimal rounding. -/
lemma round2R_50 : round2R (50 : ℝ) = 50 := by
  have h : ((50 : ℚ) : ℝ) = (50 : ℝ) := by norm_num
  have h2 : round2Q (50 : ℚ) = 50 := by with_unfolding_all decide
  calc round2R (50 : ℝ) = round2R ((50 : ℚ) : ℝ) := by rw [h]
    _ = ((round2Q (50 : ℚ) : ℚ) : ℝ) := round2R_of_rat _
    _ = ((50 : ℚ) : ℝ) := by rw [h2]
    _ = 50 := h

/-- 100 is a fixed point of two-decimal rounding. -/
lemma round2R_100 : round2R (100 : ℝ) = 100 := by
  have h : ((100 : ℚ) : ℝ) = (100 : ℝ) := by norm_num
  have h2 : round2Q (100 : ℚ) = 100 := by with_unfolding_all decide
  calc round2R (100 : ℝ) = round2R ((100 : ℚ) : ℝ) := by rw [h]
    _ = ((round2Q (100 : ℚ) : ℚ) : ℝ) := round2R_of_rat _
    _ = ((100 : ℚ) : ℝ) := by rw [h2]
    _ = 100 := h

/-- C7: for any input, including the empty string, `aiProbability` lies in
`[0,100]` and `confidenceScore` in `[50,100]`.  In the exact-arithmetic
embedding every value is a well-defined (finite) rational or real number;
the `NaN` cases of the source (averages over zero non-blank lines) are the
explicitly guarded branches of `analyzeComplexity` and `analyzeUniformity`,
which return the finite bucket value 55. -/
theorem c7_output_ranges (code lang : Text) :
    0 ≤ (DetectionEngine.analyzeCode code lang).aiProbability
  ∧ (DetectionEngine.analyzeCode code lang).aiProbability ≤ 100
  ∧ 50 ≤ (DetectionEngine.analyzeCode code lang).confidenceScore
  ∧ (DetectionEngine.analyzeCode code lang).confidenceScore ≤ 100 := by
  have ha : (DetectionEngine.analyzeCode code lang).aiProbability
      = round2Q (DetectionEngine.calculateAIProbability (DetectionEngine.metrics code)) := rfl
  have hc : (DetectionEngine.analyzeCode code lang).confidenceScore
      = round2R (DetectionEngine.calculateConfidence (DetectionEngine.metrics code)) := rfl
  have hq0 : round2Q 0 = 0 := by with_unfolding_all decide
  have hq100 : round2Q 100 = 100 := by with_unfolding_all decide
  have hclampA0 : (0 : ℚ) ≤ DetectionEngine.calculateAIProbability (DetectionEngine.metrics code) :=
    le_max_left _ _
  have hclampA1 : DetectionEngine.calculateAIProbability (DetectionEngine.metrics code) ≤ 100 :=
    max_le (by norm_num) (min_le_left _ _)
  have hclampC0 : (50 : ℝ) ≤ DetectionEngine.calculateConfidence (DetectionEngine.metrics code) :=
    le_max_left _ _
  have hclampC1 : DetectionEngine.calculateConfidence (DetectionEngine.metrics code) ≤ 100 :=
    max_le (by norm_num) (min_le_left _ _)
  refine ⟨?_, ?_, ?_, ?_⟩
  · rw [ha]
    calc (0 : ℚ) = round2Q 0 := hq0.symm
      _ ≤ _ := round2Q_mono hclampA0
  · rw [ha]
    calc round2Q (DetectionEngine.calculateAIProbability (DetectionEngine.metrics code))
        ≤ round2Q 100 := round2Q_mono hclampA1
      _ = 100 := hq100
  · rw [hc]
    calc (50 : ℝ) = round2R 50 := round2R_50.symm
      _ ≤ _ := round2R_mono hclampC0
  · rw [hc]
    calc round2R (DetectionEngine.calculateConfidence (DetectionEngine.metrics code))
        ≤ round2R 100 := round2R_mono hclampC1
      _ = 100 := round2R_100

/-! ### Claim C8 — the excessive-comments pattern -/

/-- Number of lines whose trimmed content starts with `//` or `/*` (the
comment test of the excessive-comments rule — `*` and `#` prefixes do not
count here). -/
def excessiveCommentCount (code : Text) : Nat :=
  ((splitLines code).filter (fun line =>
    startsWith "//".data (trim line) || startsWith "/*".data (trim line))).length

/-- The style group never emits a pattern named `Excessive Comments`. -/
lemma filter_EC_style (code : Text) :
    (PatternAnalyzer.detectStylePatterns code).filter
      (fun p => p.patternName == "Excessive Comments") = [] := by
  unfold PatternAnalyzer.detectStylePatterns
  dsimp only
  split_ifs <;> rfl

/-- The complexity group never emits a pattern named `Excessive Comments`. -/
lemma filter_EC_complexity (code : Text) :
    (PatternAnalyzer.detectComplexityPatterns code).filter
      (fun p => p.patternName == "Excessive Comments") = [] := by
  unfold PatternAnalyzer.detectComplexityPatterns
  dsimp only
  split_ifs <;> rfl

/-- The security group never emits a pattern named `Excessive Comments`. -/
lemma filter_EC_security (code : Text) :
    (PatternAnalyzer.detectSecurityPatterns code).filter
      (fun p => p.patternName == "Excessive Comments") = [] := by
  unfold PatternAnalyzer.detectSecurityPatterns
  dsimp only
  split_ifs <;> rfl

/-- Within the AI-indicator group, the `Excessive Comments` pattern appears
exactly under the claimed threshold, with positional line numbers. -/
lemma filter_EC_ai (code : Text) :
    (PatternAnalyzer.detectAIPatterns code).filter
      (fun p => p.patternName == "Excessive Comments") =
    (if (excessiveCommentCount code : ℚ) > ((splitLines code).length : ℚ) * (3 / 10) then
      [{ patternType := "ai-indicator"
         patternName := "Excessive Comments"
         severity := .medium
         description := "High comment density may indicate AI-generated code"
         lineNumbers := (List.range (excessiveCommentCount code)).map (fun idx => idx + 1) }]
    else []) := by
  unfold PatternAnalyzer.detectAIPatterns excessiveCommentCount
  dsimp only
  split_ifs <;> rfl

/-- C8: the pattern analyzer emits the `medium`-severity ai-indicator
`Excessive Comments` pattern exactly when the count of lines whose trimmed
content starts with `//` or `/*` exceeds 0.3 times the total line count
(blank lines included), and its `lineNumbers` are then exactly
`1, 2, …, count` — sequential positional indices
(`List.range count` shifted by one), not source positions. -/
theorem c8_excessive_comments (code lang : Text) :
    (PatternAnalyzer.detectPatterns code lang).filter
      (fun p => p.patternName == "Excessive Comments") =
    (if (excessiveCommentCount code : ℚ) > ((splitLines code).length : ℚ) * (3 / 10) then
      [{ patternType := "ai-indicator"
         patternName := "Excessive Comments"
         severity := .medium
         description := "High comment density may indicate AI-generated code"
         lineNumbers := (List.range (excessiveCommentCount code)).map (fun idx => idx + 1) }]
    else []) := by
  unfold PatternAnalyzer.detectPatterns
  rw [List.filter_append, List.filter_append, List.filter_append,
    filter_EC_style, filter_EC_complexity, filter_EC_security, filter_EC_ai]
  simp

/-! ### Claim C10 — the unclamped weighted sum -/

/-- The comment-density bucket set. -/
lemma commentDensity_mem (code : Text) :
    DetectionEngine.calculateCommentDensity code = 0 ∨
    DetectionEngine.calculateCommentDensity code = 20 ∨
    DetectionEngine.calculateCommentDensity code = 50 ∨
    DetectionEngine.calculateCommentDensity code = 75 := by
  unfold DetectionEngine.calculateCommentDensity
  dsimp only
  split_ifs <;> norm_num

/-- The code-structure bucket set. -/
lemma codeStructure_mem (code : Text) :
    DetectionEngine.analyzeCodeStructure code = 30 ∨
    DetectionEngine.analyzeCodeStructure code = 50 ∨
    DetectionEngine.analyzeCodeStructure code = 70 := by
  unfold DetectionEngine.analyzeCodeStructure
  dsimp only
  split_ifs <;> norm_num

/-- The naming-pattern bucket set. -/
lemma namingPattern_mem (code : Text) :
    DetectionEngine.analyzeNamingPatterns code = 35 ∨
    DetectionEngine.analyzeNamingPatterns code = 50 ∨
    DetectionEngine.analyzeNamingPatterns code = 65 := by
  unfold DetectionEngine.analyzeNamingPatterns
  dsimp only
  split_ifs <;> norm_num

/-- The complexity bucket set. -/
lemma complexity_mem (code : Text) :
    DetectionEngine.analyzeComplexity code = 40 ∨
    DetectionEngine.analyzeComplexity code = 55 ∨
    DetectionEngine.analyzeComplexity code = 70 := by
  unfold DetectionEngine.analyzeComplexity
  dsimp only
  split_ifs <;> norm_num

/-- The uniformity bucket set. -/
lemma uniformity_mem (code : Text) :
    DetectionEngine.analyzeUniformity code = 40 ∨
    DetectionEngine.analyzeUniformity code = 55 ∨
    DetectionEngine.analyzeUniformity code = 75 := by
  unfold DetectionEngine.analyzeUniformity
  dsimp only
  split_ifs <;> norm_num

/-- C10: each metric takes values only in its finite bucket set
(`commentDensity ∈ {0,20,50,75}`, `codeStructureScore ∈ {30,50,70}`,
`namingPatternScore ∈ {35,50,65}`, `complexityScore ∈ {40,55,70}`,
`uniformityScore ∈ {40,55,75}`), so the unclamped weighted sum lies in
`[30.5, 70.75]`, the clamp to `[0,100]` never activates, and the rounded
`aiProbability` stays within `[30.5, 70.75]`. -/
theorem c10_raw_sum_bounds (code lang : Text) :
    (DetectionEngine.calculateCommentDensity code = 0 ∨
     DetectionEngine.calculateCommentDensity code = 20 ∨
     DetectionEngine.calculateCommentDensity code = 50 ∨
     DetectionEngine.calculateCommentDensity code = 75)
  ∧ (DetectionEngine.analyzeCodeStructure code = 30 ∨
     DetectionEngine.analyzeCodeStructure code = 50 ∨
     DetectionEngine.analyzeCodeStructure code = 70)
  ∧ (DetectionEngine.analyzeNamingPatterns code = 35 ∨
     DetectionEngine.analyzeNamingPatterns code = 50 ∨
     DetectionEngine.analyzeNamingPatterns code = 65)
  ∧ (DetectionEngine.analyzeComplexity code = 40 ∨
     DetectionEngine.analyzeComplexity code = 55 ∨
     DetectionEngine.analyzeComplexity code = 70)
  ∧ (DetectionEngine.analyzeUniformity code = 40 ∨
     DetectionEngine.analyzeUniformity code = 55 ∨
     DetectionEngine.analyzeUniformity code = 75)
  ∧ 30.5 ≤ DetectionEngine.rawProbability (DetectionEngine.metrics code)
  ∧ DetectionEngine.rawProbability (DetectionEngine.metrics code) ≤ 70.75
  ∧ DetectionEngine.calculateAIProbability (DetectionEngine.metrics code)
      = DetectionEngine.rawProbability (DetectionEngine.metrics code)
  ∧ 30.5 ≤ (DetectionEngine.analyzeCode code lang).aiProbability
  ∧ (DetectionEngine.analyzeCode code lang).aiProbability ≤ 70.75 := by
  have b1 : 0 ≤ DetectionEngine.calculateCommentDensity code ∧
      DetectionEngine.calculateCommentDensity code ≤ 75 := by
    rcases commentDensity_mem code with h | h | h | h <;> rw [h] <;> norm_num
  have b2 : 30 ≤ DetectionEngine.analyzeCodeStructure code ∧
      DetectionEngine.analyzeCodeStructure code ≤ 70 := by
    rcases codeStructure_mem code with h | h | h <;> rw [h] <;> norm_num
  have b3 : 35 ≤ DetectionEngine.analyzeNamingPatterns code ∧
      DetectionEngine.analyzeNamingPatterns code ≤ 65 := by
    rcases namingPattern_mem code with h | h | h <;> rw [h] <;> norm_num
  have b4 : 40 ≤ DetectionEngine.analyzeComplexity code ∧
      DetectionEngine.analyzeComplexity code ≤ 70 := by
    rcases complexity_mem code with h | h | h <;> rw [h] <;> norm_num
  have b5 : 40 ≤ DetectionEngine.analyzeUniformity code ∧
      DetectionEngine.analyzeUniformity code ≤ 75 := by
    rcases uniformity_mem code with h | h | h <;> rw [h] <;> norm_num
  have hraw : DetectionEngine.rawProbability (DetectionEngine.metrics code) =
      DetectionEngine.calculateCommentDensity code * 0.15 +
      DetectionEngine.analyzeCodeStructure code * 0.25 +
      DetectionEngine.analyzeNamingPatterns code * 0.20 +
      DetectionEngine.analyzeComplexity code * 0.20 +
      DetectionEngine.analyzeUniformity code * 0.20 := rfl
  have hlo : 30.5 ≤ DetectionEngine.rawProbability (DetectionEngine.metrics code) := by
    rw [hraw]; nlinarith [b1.1, b2.1, b3.1, b4.1, b5.1]
  have hhi : DetectionEngine.rawProbability (DetectionEngine.metrics code) ≤ 70.75 := by
    rw [hraw]; nlinarith [b1.2, b2.2, b3.2, b4.2, b5.2]
  have hclamp : DetectionEngine.calculateAIProbability (DetectionEngine.metrics code)
      = DetectionEngine.rawProbability (DetectionEngine.metrics code) := by
    unfold DetectionEngine.calculateAIProbability
    rw [min_eq_right (by linarith), max_eq_right (by linarith)]
  have hq305 : round2Q 30.5 = 30.5 := by with_unfolding_all decide
  have hq7075 : round2Q 70.75 = 70.75 := by with_unfolding_all decide
  have ha : (DetectionEngine.analyzeCode code lang).aiProbability
      = round2Q (DetectionEngine.calculateAIProbability (DetectionEngine.metrics code)) := rfl
  refine ⟨commentDensity_mem code, codeStructure_mem code, namingPattern_mem code,
    complexity_mem code, uniformity_mem code, hlo, hhi, hclamp, ?_, ?_⟩
  · rw [ha, hclamp]
    calc (30.5 : ℚ) = round2Q 30.5 := hq305.symm
      _ ≤ _ := round2Q_mono hlo
  · rw [ha, hclamp]
    calc round2Q (DetectionEngine.rawProbability (DetectionEngine.metrics code))
        ≤ round2Q 70.75 := round2Q_mono hhi
      _ = 70.75 := hq7075

/-! ### Claim C9 — the language tag never influences any engine -/

/-- C9: each of the three engines ignores its `language` argument: for any
code text and any two language tags, the outputs coincide (all three
embedded functions never inspect the parameter, as in the source). -/
theorem c9_language_invariance (code l1 l2 : Text) :
    DetectionEngine.analyzeCode code l1 = DetectionEngine.analyzeCode code l2
  ∧ PatternAnalyzer.detectPatterns code l1 = PatternAnalyzer.detectPatterns code l2
  ∧ SuggestionGenerator.generateSuggestions code l1 = SuggestionGenerator.generateSuggestions code l2 :=
  ⟨rfl, rfl, rfl⟩

end AICD
